import Mathlib

/-
  Verification development for the intel/stable-diffusion-samples notebooks.

  The repository consists of three notebooks (01_Simple_Pytorch_SD.ipynb,
  03_ControlNet_Generate.ipynb, and an OpenVINO text-to-image notebook) plus a
  CI workflow file.  The only local algorithmic code is the reflective helper
  optimize_pipeline in 03_ControlNet_Generate.ipynb:

    for attr in dir(pipeline):
        try:
            if isinstance(getattr(pipeline, attr), nn.Module):
                setattr(
                    pipeline,
                    attr,
                    ipex.optimize(
                        getattr(pipeline, attr).eval(),
                        dtype=pipeline.text_encoder.dtype,
                        inplace=True,
                    ),
                )
        except AttributeError:
            pass
    return pipeline

  We embed that helper over an explicit pipeline state (attributes as an
  association list, dir(pipeline) as a fixed name list, in-place mutation as
  state passing), embed each notebook as a linear trace of effectful steps,
  and embed the Canny conditioning-image construction from the same notebook.
-/

/-- Torch dtypes that occur in the notebooks (torch.float16, torch.bfloat16,
torch.float32 as the usual default). -/
inductive Dtype where
  | float32
  | float16
  | bfloat16
deriving DecidableEq

/-- Model of a torch.nn.Module object as it matters to optimize_pipeline:
an identity, its dtype attribute, its training flag (toggled in place by
.eval()), and a record of the dtype argument of the ipex.optimize call that
produced it, if any. -/
structure NNModule where
  modId : Nat
  dtype : Dtype
  training : Bool
  optimizedWith : Option Dtype
deriving DecidableEq

/-- nn.Module.eval() : sets self.training to False in place and returns self.
This runs as the first (positional) argument of the ipex.optimize call, hence
before the dtype keyword argument is evaluated. -/
def NNModule.eval (m : NNModule) : NNModule := { m with training := false }

/-- A Python value stored in a pipeline attribute: either an nn.Module
instance, or some other object (carrying an identity and, possibly, a dtype
attribute of its own, since `x.dtype` in Python is not restricted to
modules). -/
inductive PyVal where
  | module (m : NNModule)
  | other (objId : Nat) (dtypeAttr : Option Dtype)
deriving DecidableEq

/-- The `.dtype` attribute access on a Python value: modules always expose
their dtype; other objects may or may not have one. -/
def PyVal.dtypeOf : PyVal → Option Dtype
  | .module m => some m.dtype
  | .other _ d => d

/-- The pipeline object handed to optimize_pipeline: an object identity (so
that in-place mutation versus copying is observable), its attribute mapping,
and the name list returned by dir(pipeline), which Python evaluates once at
the head of the for loop. -/
structure Pipeline where
  objId : Nat
  attrs : List (String × PyVal)
  dirList : List String
deriving DecidableEq

/-- getattr on the attribute mapping: first entry with the given name. -/
def getattrList? : List (String × PyVal) → String → Option PyVal
  | [], _ => none
  | (k, v) :: rest, n => if k = n then some v else getattrList? rest n

/-- getattr(pipeline, n); `none` models getattr raising AttributeError. -/
def getattr? (p : Pipeline) (n : String) : Option PyVal :=
  getattrList? p.attrs n

/-- setattr on the attribute mapping: overwrite the first entry with the
given name, or append a fresh one. -/
def setattrList : List (String × PyVal) → String → PyVal → List (String × PyVal)
  | [], n, v => [(n, v)]
  | (k, w) :: rest, n, v =>
      if k = n then (n, v) :: rest else (k, w) :: setattrList rest n v

/-- setattr(pipeline, n, v): mutates the attribute mapping, keeping the same
object identity and the already-computed dir list. -/
def setattr (p : Pipeline) (n : String) (v : PyVal) : Pipeline :=
  { p with attrs := setattrList p.attrs n v }

/-- The expression pipeline.text_encoder.dtype; `none` models the chain
raising AttributeError (no text_encoder attribute, or a text_encoder without
a dtype attribute). -/
def textEncoderDtype? (p : Pipeline) : Option Dtype :=
  (getattr? p "text_encoder").bind PyVal.dtypeOf

/-- Python exceptions as they matter to the helper: AttributeError, which the
except clause catches, and every other exception class (RuntimeError,
out-of-memory errors, and so on), identified by name. -/
inductive PyExc where
  | attributeError
  | otherError (name : String)
deriving DecidableEq

/-- The behaviour of the external call ipex.optimize(module, dtype=d,
inplace=True) is a parameter of the model: it may return an optimized module
or raise an exception. -/
def OptFun := NNModule → Dtype → Except PyExc NNModule

/-- One iteration of the for loop of optimize_pipeline on attribute name
`a`, with the try/except effects made explicit.  Returns the pipeline state
after the iteration together with the exception the body raised, if any
(mutations performed before the raise are kept, exactly as in Python):
getattr may raise AttributeError; a non-module attribute leaves the state
untouched; for a module, `.eval()` first mutates the module in place, then
pipeline.text_encoder.dtype is read (possibly raising AttributeError), then
ipex.optimize runs and its result is written back with setattr. -/
def processAttr (opt : OptFun) (p : Pipeline) (a : String) :
    Pipeline × Option PyExc :=
  match getattr? p a with
  | none => (p, some PyExc.attributeError)
  | some (PyVal.other _ _) => (p, none)
  | some (PyVal.module m) =>
      let p1 := setattr p a (PyVal.module m.eval)
      match textEncoderDtype? p1 with
      | none => (p1, some PyExc.attributeError)
      | some d =>
          match opt m.eval d with
          | Except.error e => (p1, some e)
          | Except.ok m2 => (setattr p1 a (PyVal.module m2), none)

/-- The for loop of optimize_pipeline over the remaining attribute names:
`except AttributeError: pass` continues the sweep from the mutated state;
any other exception aborts the loop and propagates. -/
def sweep (opt : OptFun) : List String → Pipeline → Pipeline × Option PyExc
  | [], p => (p, none)
  | a :: rest, p =>
      match (processAttr opt p a).2 with
      | none => sweep opt rest (processAttr opt p a).1
      | some PyExc.attributeError => sweep opt rest (processAttr opt p a).1
      | some (PyExc.otherError s) =>
          ((processAttr opt p a).1, some (PyExc.otherError s))

/-- optimize_pipeline(pipeline): sweep dir(pipeline) and return the pipeline;
the second component is the exception that escaped the function, if any. -/
def optimize_pipeline (opt : OptFun) (p : Pipeline) : Pipeline × Option PyExc :=
  sweep opt p.dirList p

/-- An external optimizer that always returns normally, as a model
parameter. -/
def liftOpt (f : NNModule → Dtype → NNModule) : OptFun :=
  fun m d => Except.ok (f m d)

/-- The concrete default model of a successful ipex.optimize call: records
the dtype it was asked to optimize for. -/
def ipexOptimizeFn (m : NNModule) (d : Dtype) : NNModule :=
  { m with optimizedWith := some d }

/-- Model of ipex.optimize raising AttributeError internally (it is an
external library call sitting inside the try block). -/
def optAttrFail : OptFun := fun _ _ => Except.error PyExc.attributeError

/-- Model of ipex.optimize raising a non-AttributeError exception. -/
def optRuntimeFail : OptFun :=
  fun _ _ => Except.error (PyExc.otherError "RuntimeError")

/-- A text encoder module in bfloat16, used in concrete test pipelines. -/
def teModule : NNModule := { modId := 0, dtype := Dtype.bfloat16, training := false, optimizedWith := none }

/-- A unet module still in training mode, used in concrete test pipelines. -/
def unetModule : NNModule := { modId := 1, dtype := Dtype.bfloat16, training := true, optimizedWith := none }

-- ----------------------------------------------------------------------
-- Notebook traces.  Each notebook is a linear script; we transcribe its
-- code cells, in order, as a list of effectful steps.
-- ----------------------------------------------------------------------

/-- The argument list of a diffusion-pipeline inference call: the positional
prompt string, the numeric keyword arguments actually passed (none when the
keyword is absent from the call), and whether a conditioning image keyword
is passed. -/
structure InferenceArgs where
  prompt : String
  numInferenceSteps : Option Nat
  guidanceScale : Option Nat
  seedArg : Option Nat
  conditioningImage : Bool
deriving DecidableEq

/-- Kinds of files the notebooks write to the working directory. -/
inductive FileKind where
  | png
  | pythonSource
  | modelDirSave
deriving DecidableEq

/-- One step of a notebook run.  tensorToDevice is the `.to` call on the
(unused) image tensor in the ControlNet notebook, as opposed to toDevice,
which moves the pipeline. -/
inductive Step where
  | envPathSetup
  | pipInstall (pkgs : List String)
  | importLibs
  | printInfo
  | fetchUrl (url : String)
  | fileWrite (path : String) (kind : FileKind)
  | loadInputImage (url : String)
  | cannyEdgeDetect (low high : Nat)
  | tensorToDevice (dev : String)
  | loadAuxModel (modelId : String)
  | buildPipeline (modelId : String)
  | setScheduler
  | toDevice (dev : String)
  | optimizePipelineCall
  | compileModel
  | widgetSetup
  | seedNumpy (seed : Nat)
  | inference (args : InferenceArgs)
  | makeGrid
  | displayImage
deriving DecidableEq

/-- Trace of 01_Simple_Pytorch_SD.ipynb: sys.path setup, pip install,
imports, StableDiffusionPipeline.from_pretrained, .to("xpu"), a single
inference call with only a positional prompt, then display.  The
image.save call is commented out, so the notebook writes no file. -/
def simpleSDSteps : List Step :=
  [Step.envPathSetup,
   Step.printInfo,
   Step.pipInstall ["diffusers", "accelerate", "transformers", "tqdm"],
   Step.importLibs,
   Step.printInfo,
   Step.buildPipeline "/home/common/data/Big_Data/GenAI/runwayml/stable-diffusion-v1-5",
   Step.toDevice "xpu",
   Step.inference
     { prompt := "A cat riding a surfboard on a big wave",
       numInferenceSteps := none, guidanceScale := none, seedArg := none,
       conditioningImage := false },
   Step.displayImage]

/-- Trace of 03_ControlNet_Generate.ipynb: imports, load_image, Canny edge
detection (thresholds 100/200), the unused image tensor moved to xpu,
ControlNetModel.from_pretrained, StableDiffusionControlNetPipeline
.from_pretrained, scheduler swap, .to("xpu"), optimize_pipeline, a single
inference call with a positional prompt and the image keyword, the image
grid, and cv2.imwrite("house.png", ...). -/
def controlNetSteps : List Step :=
  [Step.importLibs,
   Step.importLibs,
   Step.loadInputImage "https://img.freepik.com/premium-photo/house-outline-illustration-white-background_1112329-31710.jpg",
   Step.cannyEdgeDetect 100 200,
   Step.tensorToDevice "xpu",
   Step.loadAuxModel "lllyasviel/sd-controlnet-canny",
   Step.buildPipeline "runwayml/stable-diffusion-v1-5",
   Step.setScheduler,
   Step.toDevice "xpu",
   Step.optimizePipelineCall,
   Step.inference
     { prompt := "Vivid Watercolor",
       numInferenceSteps := none, guidanceScale := none, seedArg := none,
       conditioningImage := true },
   Step.makeGrid,
   Step.fileWrite "house.png" FileKind.png]

/-- The prompt text preloaded into the text widget of the OpenVINO
notebook. -/
def ovPrompt : String :=
  "cyberpunk cityscape like Tokyo New York  with tall buildings at dusk golden hour cinematic lighting, epic composition. A golden daylight, hyper-realistic environment. Hyper and intricate detail, photo-realistic. Cinematic and volumetric light. Epic concept art. Octane render and Unreal Engine, trending on artstation"

/-- Trace of the OpenVINO text-to-image notebook, parameterized by whether
the diffusion_pipeline cache directory already exists and by the step-count
and seed widget values (defaults 20 and 42): sys.path setup, four pip
installs, download of notebook_utils.py written to the working directory,
imports, device widget, OVStableDiffusionPipeline.from_pretrained (with
save_pretrained on the first run), compile, widgets, np.random.seed, a
single inference call passing the prompt and num_inference_steps, and
final_image.save("result.png"). -/
def ovSteps (modelDirExists : Bool) (steps seedVal : Nat) : List Step :=
  [Step.envPathSetup,
   Step.printInfo,
   Step.pipInstall ["openvino", "optimum-intel"],
   Step.pipInstall ["diffusers", "torch"],
   Step.pipInstall ["huggingface-hub"],
   Step.pipInstall ["transformers", "Pillow", "opencv-python", "tqdm", "ipywidgets"],
   Step.fetchUrl "https://raw.githubusercontent.com/openvinotoolkit/openvino_notebooks/latest/utils/notebook_utils.py",
   Step.fileWrite "notebook_utils.py" FileKind.pythonSource,
   Step.importLibs,
   Step.widgetSetup] ++
  (if modelDirExists then
     [Step.buildPipeline "diffusion_pipeline"]
   else
     [Step.buildPipeline "prompthero/openjourney",
      Step.fileWrite "diffusion_pipeline" FileKind.modelDirSave]) ++
  [Step.compileModel,
   Step.widgetSetup,
   Step.printInfo,
   Step.seedNumpy seedVal,
   Step.inference
     { prompt := ovPrompt,
       numInferenceSteps := some steps, guidanceScale := none, seedArg := none,
       conditioningImage := false },
   Step.fileWrite "result.png" FileKind.png,
   Step.printInfo,
   Step.displayImage]

/-- The files a trace writes to the working directory, in order. -/
def writesOf (t : List Step) : List (String × FileKind) :=
  t.filterMap fun s =>
    match s with
    | Step.fileWrite path kind => some (path, kind)
    | _ => none

/-- The argument lists of the inference calls a trace performs, in order. -/
def inferencesOf (t : List Step) : List InferenceArgs :=
  t.filterMap fun s =>
    match s with
    | Step.inference args => some args
    | _ => none

/-- The phases named by the spec sentence "environment setup → dependency
install → model load → device transfer → single inference call →
display/save output". -/
inductive Phase where
  | setup
  | install
  | load
  | transfer
  | infer
  | output
deriving DecidableEq

/-- Position of a phase in the spec ordering. -/
def Phase.idx : Phase → Nat
  | .setup => 0
  | .install => 1
  | .load => 2
  | .transfer => 3
  | .infer => 4
  | .output => 5

/-- Which spec phase, if any, a step belongs to.  Loading the auxiliary
ControlNet model counts as model load; moving the unused image tensor is
not a pipeline device transfer; the remaining bookkeeping steps (imports,
prints, widgets, scheduler swap, compile, optimize, grid) belong to no
listed phase. -/
def Step.phaseOf : Step → Option Phase
  | Step.envPathSetup => some Phase.setup
  | Step.pipInstall _ => some Phase.install
  | Step.loadAuxModel _ => some Phase.load
  | Step.buildPipeline _ => some Phase.load
  | Step.toDevice _ => some Phase.transfer
  | Step.inference _ => some Phase.infer
  | Step.displayImage => some Phase.output
  | Step.fileWrite _ FileKind.png => some Phase.output
  | _ => none

/-- The phase sequence of a trace. -/
def phasesOf (t : List Step) : List Phase :=
  t.filterMap Step.phaseOf

/-- Adjacent phases are in nondecreasing spec order. -/
def phaseIdxMono : List Phase → Bool
  | [] => true
  | [_] => true
  | a :: b :: rest => decide (Phase.idx a ≤ Phase.idx b) && phaseIdxMono (b :: rest)

/-- The phases of a trace occur in the spec order. -/
def phasesMonotone (t : List Step) : Prop :=
  phaseIdxMono (phasesOf t) = true

/-- Number of inference calls in a trace. -/
def inferenceCount (t : List Step) : Nat :=
  (inferencesOf t).length

/-- Number of inference-pipeline constructions (from_pretrained on the
pipeline class) in a trace. -/
def pipelineLoadCount (t : List Step) : Nat :=
  (t.filterMap fun s =>
    match s with
    | Step.buildPipeline m => some m
    | _ => none).length

/-- Modelled from the claim wording, for comparison with the traces: the
only file a run writes to the working directory is a single PNG image. -/
def specSinglePngOnly (t : List Step) : Prop :=
  (writesOf t).length = 1 ∧ ∀ w ∈ writesOf t, w.2 = FileKind.png

/-- Modelled from the claim wording, for comparison with the traces: every
inference call is passed a step count, a guidance scale and a random
seed. -/
def specFullNumericParams (t : List Step) : Prop :=
  ∀ args ∈ inferencesOf t,
    args.numInferenceSteps.isSome = true ∧
    args.guidanceScale.isSome = true ∧
    args.seedArg.isSome = true

/-- Modelled from the claim wording, for comparison with the traces: the
run performs all six phases, in the listed order, loading the pipeline
once and calling inference exactly once. -/
def specLinearScript (t : List Step) : Prop :=
  phasesMonotone t ∧
  Phase.setup ∈ phasesOf t ∧ Phase.install ∈ phasesOf t ∧
  Phase.load ∈ phasesOf t ∧ Phase.transfer ∈ phasesOf t ∧
  Phase.infer ∈ phasesOf t ∧ Phase.output ∈ phasesOf t ∧
  pipelineLoadCount t = 1 ∧ inferenceCount t = 1

-- ----------------------------------------------------------------------
-- The Canny conditioning image of 03_ControlNet_Generate.ipynb:
--   image = cv2.Canny(image, low_threshold, high_threshold)
--   image = image[:, :, None]
--   image = np.concatenate([image, image, image], axis=2)
--   canny_image = Image.fromarray(image)
-- cv2.Canny is external; its single-channel result is the model parameter
-- `edge`, an H x W array of pixel values.
-- ----------------------------------------------------------------------

/-- image[:, :, None] : add a trailing channel axis to a 2-d array. -/
def addChannelAxis (a : Nat → Nat → Nat) : Nat → Nat → Fin 1 → Nat :=
  fun i j _ => a i j

/-- np.concatenate([x, y, z], axis=2) on three H x W x 1 arrays: channel c
of the result reads channel 0 of the c-th input. -/
def concatChannels3 (x y z : Nat → Nat → Fin 1 → Nat) :
    Nat → Nat → Fin 3 → Nat :=
  fun i j c =>
    if c.val = 0 then x i j 0
    else if c.val = 1 then y i j 0
    else z i j 0

/-- The pixel array behind canny_image: the single-channel Canny output
stacked three times along the channel axis. -/
def cannyImageArray (edge : Nat → Nat → Nat) : Nat → Nat → Fin 3 → Nat :=
  concatChannels3 (addChannelAxis edge) (addChannelAxis edge) (addChannelAxis edge)

-- ----------------------------------------------------------------------
-- Concrete pipelines used by witnesses and counterexamples.
-- ----------------------------------------------------------------------

/-- A typical pipeline for the C1 witness: a text encoder and a unet, both
listed by dir. -/
def pipeC1 : Pipeline :=
  { objId := 10,
    attrs := [("text_encoder", PyVal.module teModule),
              ("unet", PyVal.module unetModule),
              ("scheduler", PyVal.other 7 none)],
    dirList := ["text_encoder", "unet", "scheduler"] }

/-- Pipeline for the C2 counterexample: dir lists only the unet, and the
text encoder is present, so the sweep reaches the ipex.optimize call. -/
def pipeC2 : Pipeline :=
  { objId := 20,
    attrs := [("text_encoder", PyVal.module teModule),
              ("unet", PyVal.module unetModule)],
    dirList := ["unet"] }

/-- Pipeline for the C2 witness. -/
def pipeC2w : Pipeline :=
  { objId := 21,
    attrs := [("text_encoder", PyVal.module teModule),
              ("unet", PyVal.module unetModule)],
    dirList := ["unet"] }

/-- Pipeline for the C3 witness: dir lists a ghost attribute that getattr
cannot produce, next to a real module. -/
def pipeC3 : Pipeline :=
  { objId := 30,
    attrs := [("text_encoder", PyVal.module teModule),
              ("unet", PyVal.module unetModule)],
    dirList := ["ghost", "unet"] }

/-- Pipeline for the C7 counterexample: no text_encoder attribute, one
module still in training mode. -/
def pipeC7 : Pipeline :=
  { objId := 70,
    attrs := [("unet", PyVal.module unetModule)],
    dirList := ["unet"] }

/-- Pipeline for the C7 witness: no text_encoder attribute, a module and a
non-module attribute. -/
def pipeC7w : Pipeline :=
  { objId := 71,
    attrs := [("unet", PyVal.module unetModule),
              ("scheduler", PyVal.other 9 none)],
    dirList := ["unet", "scheduler"] }

/-- Pipeline for the C8 witness: a non-module attribute next to modules. -/
def pipeC8 : Pipeline :=
  { objId := 80,
    attrs := [("text_encoder", PyVal.module teModule),
              ("unet", PyVal.module unetModule),
              ("feature_extractor", PyVal.other 3 (some Dtype.float32))],
    dirList := ["feature_extractor", "text_encoder", "unet"] }

-- Basic getattr/setattr lemmas.

theorem getattrList?_setattrList_self (l : List (String × PyVal)) (n : String) (v : PyVal) :
    getattrList? (setattrList l n v) n = some v := by
  induction l with
  | nil => simp [setattrList, getattrList?]
  | cons h t ih =>
      by_cases hk : h.1 = n
      · simp [setattrList, hk, getattrList?]
      · simp [setattrList, hk, getattrList?, ih]

theorem getattrList?_setattrList_ne (l : List (String × PyVal)) (n n' : String) (v : PyVal)
    (h : n' ≠ n) : getattrList? (setattrList l n v) n' = getattrList? l n' := by
  have hne : n ≠ n' := fun hh => h hh.symm
  induction l with
  | nil => simp [setattrList, getattrList?, hne]
  | cons hd t ih =>
      obtain ⟨k, w⟩ := hd
      by_cases hk : k = n
      · have hk' : k ≠ n' := by rw [hk]; exact hne
        simp [setattrList, hk, getattrList?, hne, hk']
      · simp [setattrList, hk, getattrList?, ih]

theorem getattr?_setattr_self (p : Pipeline) (n : String) (v : PyVal) :
    getattr? (setattr p n v) n = some v :=
  getattrList?_setattrList_self p.attrs n v

theorem getattr?_setattr_ne (p : Pipeline) (n n' : String) (v : PyVal) (h : n' ≠ n) :
    getattr? (setattr p n v) n' = getattr? p n' :=
  getattrList?_setattrList_ne p.attrs n n' v h

theorem setattr_objId (p : Pipeline) (n : String) (v : PyVal) :
    (setattr p n v).objId = p.objId := rfl

theorem setattr_dirList (p : Pipeline) (n : String) (v : PyVal) :
    (setattr p n v).dirList = p.dirList := rfl


-- ----------------------------------------------------------------------
-- Characterization of one loop iteration.
-- ----------------------------------------------------------------------

theorem processAttr_none (opt : OptFun) (p : Pipeline) (a : String)
    (h : getattr? p a = none) :
    processAttr opt p a = (p, some PyExc.attributeError) := by
  simp only [processAttr, h]

theorem processAttr_other (opt : OptFun) (p : Pipeline) (a : String) (i : Nat)
    (dd : Option Dtype) (h : getattr? p a = some (PyVal.other i dd)) :
    processAttr opt p a = (p, none) := by
  simp only [processAttr, h]

theorem processAttr_module_noDtype (opt : OptFun) (p : Pipeline) (a : String)
    (m : NNModule) (h : getattr? p a = some (PyVal.module m))
    (ht : textEncoderDtype? (setattr p a (PyVal.module m.eval)) = none) :
    processAttr opt p a =
      (setattr p a (PyVal.module m.eval), some PyExc.attributeError) := by
  simp only [processAttr, h, ht]

theorem processAttr_module_err (opt : OptFun) (p : Pipeline) (a : String)
    (m : NNModule) (d : Dtype) (e : PyExc)
    (h : getattr? p a = some (PyVal.module m))
    (ht : textEncoderDtype? (setattr p a (PyVal.module m.eval)) = some d)
    (ho : opt m.eval d = Except.error e) :
    processAttr opt p a = (setattr p a (PyVal.module m.eval), some e) := by
  simp only [processAttr, h, ht, ho]

theorem processAttr_module_ok (opt : OptFun) (p : Pipeline) (a : String)
    (m : NNModule) (d : Dtype) (m2 : NNModule)
    (h : getattr? p a = some (PyVal.module m))
    (ht : textEncoderDtype? (setattr p a (PyVal.module m.eval)) = some d)
    (ho : opt m.eval d = Except.ok m2) :
    processAttr opt p a =
      (setattr (setattr p a (PyVal.module m.eval)) a (PyVal.module m2), none) := by
  simp only [processAttr, h, ht, ho]

theorem processAttr_preserves_ne (opt : OptFun) (p : Pipeline) (a b : String)
    (hba : b ≠ a) : getattr? (processAttr opt p a).1 b = getattr? p b := by
  rcases hg : getattr? p a with _ | v
  · rw [processAttr_none opt p a hg]
  · rcases v with m | ⟨i, dd⟩
    · rcases ht : textEncoderDtype? (setattr p a (PyVal.module m.eval)) with _ | d
      · rw [processAttr_module_noDtype opt p a m hg ht]
        exact getattr?_setattr_ne p a b _ hba
      · rcases ho : opt m.eval d with e | m2
        · rw [processAttr_module_err opt p a m d e hg ht ho]
          exact getattr?_setattr_ne p a b _ hba
        · rw [processAttr_module_ok opt p a m d m2 hg ht ho]
          rw [getattr?_setattr_ne _ a b _ hba, getattr?_setattr_ne p a b _ hba]
    · rw [processAttr_other opt p a i dd hg]

theorem processAttr_preserves_other (opt : OptFun) (p : Pipeline) (a b : String)
    (i : Nat) (dd : Option Dtype) (h : getattr? p b = some (PyVal.other i dd)) :
    getattr? (processAttr opt p a).1 b = some (PyVal.other i dd) := by
  by_cases hba : b = a
  · subst hba
    rw [processAttr_other opt p b i dd h]
    exact h
  · rw [processAttr_preserves_ne opt p a b hba]
    exact h

theorem processAttr_objId (opt : OptFun) (p : Pipeline) (a : String) :
    (processAttr opt p a).1.objId = p.objId := by
  rcases hg : getattr? p a with _ | v
  · rw [processAttr_none opt p a hg]
  · rcases v with m | ⟨i, dd⟩
    · rcases ht : textEncoderDtype? (setattr p a (PyVal.module m.eval)) with _ | d
      · rw [processAttr_module_noDtype opt p a m hg ht]
        rfl
      · rcases ho : opt m.eval d with e | m2
        · rw [processAttr_module_err opt p a m d e hg ht ho]
          rfl
        · rw [processAttr_module_ok opt p a m d m2 hg ht ho]
          rfl
    · rw [processAttr_other opt p a i dd hg]

theorem textEncoderDtype?_setattr_eval (p : Pipeline) (a : String) (m : NNModule)
    (d : Dtype) (hg : getattr? p a = some (PyVal.module m))
    (ht : textEncoderDtype? p = some d) :
    textEncoderDtype? (setattr p a (PyVal.module m.eval)) = some d := by
  by_cases hta : a = "text_encoder"
  · subst hta
    unfold textEncoderDtype? at ht ⊢
    rw [hg] at ht
    rw [getattr?_setattr_self]
    simpa [PyVal.dtypeOf, NNModule.eval] using ht
  · unfold textEncoderDtype? at ht ⊢
    rw [getattr?_setattr_ne p a "text_encoder" _ (fun hh => hta hh.symm)]
    exact ht

theorem processAttr_teDtype (opt : OptFun)
    (hopt : ∀ m d m2, opt m d = Except.ok m2 → m2.dtype = m.dtype)
    (p : Pipeline) (a : String) (d : Dtype)
    (ht : textEncoderDtype? p = some d) :
    textEncoderDtype? (processAttr opt p a).1 = some d := by
  rcases hg : getattr? p a with _ | v
  · rw [processAttr_none opt p a hg]; exact ht
  · rcases v with m | ⟨i, dd⟩
    · have ht1 := textEncoderDtype?_setattr_eval p a m d hg ht
      rcases ho : opt m.eval d with e | m2
      · rw [processAttr_module_err opt p a m d e hg ht1 ho]; exact ht1
      · rw [processAttr_module_ok opt p a m d m2 hg ht1 ho]
        by_cases hta : a = "text_encoder"
        · subst hta
          unfold textEncoderDtype?
          rw [getattr?_setattr_self]
          have hd2 : m2.dtype = m.eval.dtype := hopt _ _ _ ho
          have hmd : m.dtype = d := by
            unfold textEncoderDtype? at ht
            rw [hg] at ht
            simpa [PyVal.dtypeOf] using ht
          simp [PyVal.dtypeOf, hd2, NNModule.eval, hmd]
        · unfold textEncoderDtype?
          rw [getattr?_setattr_ne _ a "text_encoder" _ (fun hh => hta hh.symm)]
          unfold textEncoderDtype? at ht1
          exact ht1
    · rw [processAttr_other opt p a i dd hg]; exact ht

theorem processAttr_liftOpt_snd (f : NNModule → Dtype → NNModule) (p : Pipeline)
    (a : String) :
    (processAttr (liftOpt f) p a).2 = none ∨
    (processAttr (liftOpt f) p a).2 = some PyExc.attributeError := by
  rcases hg : getattr? p a with _ | v
  · rw [processAttr_none _ p a hg]; right; rfl
  · rcases v with m | ⟨i, dd⟩
    · rcases ht : textEncoderDtype? (setattr p a (PyVal.module m.eval)) with _ | d
      · rw [processAttr_module_noDtype _ p a m hg ht]; right; rfl
      · rw [processAttr_module_ok (liftOpt f) p a m d (f m.eval d) hg ht rfl]
        left; rfl
    · rw [processAttr_other _ p a i dd hg]; left; rfl

-- ----------------------------------------------------------------------
-- The sweep.
-- ----------------------------------------------------------------------

theorem sweep_nil (opt : OptFun) (p : Pipeline) : sweep opt [] p = (p, none) := rfl

theorem sweep_cons_none (opt : OptFun) (p : Pipeline) (a : String)
    (rest : List String) (h : (processAttr opt p a).2 = none) :
    sweep opt (a :: rest) p = sweep opt rest (processAttr opt p a).1 := by
  conv_lhs => rw [sweep]
  rw [h]

theorem sweep_cons_attrErr (opt : OptFun) (p : Pipeline) (a : String)
    (rest : List String)
    (h : (processAttr opt p a).2 = some PyExc.attributeError) :
    sweep opt (a :: rest) p = sweep opt rest (processAttr opt p a).1 := by
  conv_lhs => rw [sweep]
  rw [h]

theorem sweep_cons_other (opt : OptFun) (p : Pipeline) (a : String)
    (rest : List String) (s : String)
    (h : (processAttr opt p a).2 = some (PyExc.otherError s)) :
    sweep opt (a :: rest) p = ((processAttr opt p a).1, some (PyExc.otherError s)) := by
  conv_lhs => rw [sweep]
  rw [h]

theorem sweep_preserves_ne (opt : OptFun) (b : String) :
    ∀ (L : List String) (p : Pipeline), b ∉ L →
      getattr? (sweep opt L p).1 b = getattr? p b := by
  intro L
  induction L with
  | nil => intro p _; rfl
  | cons a rest ih =>
      intro p hb
      have hba : b ≠ a := fun hh => hb (by rw [hh]; exact List.mem_cons_self a rest)
      have hbr : b ∉ rest := fun hh => hb (List.mem_cons_of_mem a hh)
      rcases h2 : (processAttr opt p a).2 with _ | e
      · rw [sweep_cons_none opt p a rest h2, ih _ hbr,
            processAttr_preserves_ne opt p a b hba]
      · rcases e with _ | s
        · rw [sweep_cons_attrErr opt p a rest h2, ih _ hbr,
              processAttr_preserves_ne opt p a b hba]
        · rw [sweep_cons_other opt p a rest s h2]
          exact processAttr_preserves_ne opt p a b hba

theorem sweep_preserves_other (opt : OptFun) (b : String) (i : Nat)
    (dd : Option Dtype) :
    ∀ (L : List String) (p : Pipeline), getattr? p b = some (PyVal.other i dd) →
      getattr? (sweep opt L p).1 b = some (PyVal.other i dd) := by
  intro L
  induction L with
  | nil => intro p h; exact h
  | cons a rest ih =>
      intro p h
      rcases h2 : (processAttr opt p a).2 with _ | e
      · rw [sweep_cons_none opt p a rest h2]
        exact ih _ (processAttr_preserves_other opt p a b i dd h)
      · rcases e with _ | s
        · rw [sweep_cons_attrErr opt p a rest h2]
          exact ih _ (processAttr_preserves_other opt p a b i dd h)
        · rw [sweep_cons_other opt p a rest s h2]
          exact processAttr_preserves_other opt p a b i dd h

theorem sweep_objId (opt : OptFun) :
    ∀ (L : List String) (p : Pipeline), (sweep opt L p).1.objId = p.objId := by
  intro L
  induction L with
  | nil => intro p; rfl
  | cons a rest ih =>
      intro p
      rcases h2 : (processAttr opt p a).2 with _ | e
      · rw [sweep_cons_none opt p a rest h2, ih _, processAttr_objId opt p a]
      · rcases e with _ | s
        · rw [sweep_cons_attrErr opt p a rest h2, ih _, processAttr_objId opt p a]
        · rw [sweep_cons_other opt p a rest s h2]
          exact processAttr_objId opt p a

theorem sweep_snd_ne_attrErr (opt : OptFun) :
    ∀ (L : List String) (p : Pipeline),
      (sweep opt L p).2 ≠ some PyExc.attributeError := by
  intro L
  induction L with
  | nil => intro p h; exact Option.noConfusion h
  | cons a rest ih =>
      intro p
      rcases h2 : (processAttr opt p a).2 with _ | e
      · rw [sweep_cons_none opt p a rest h2]; exact ih _
      · rcases e with _ | s
        · rw [sweep_cons_attrErr opt p a rest h2]; exact ih _
        · rw [sweep_cons_other opt p a rest s h2]
          intro hcontra
          exact PyExc.noConfusion (Option.some.inj hcontra)

theorem sweep_liftOpt_snd (f : NNModule → Dtype → NNModule) :
    ∀ (L : List String) (p : Pipeline), (sweep (liftOpt f) L p).2 = none := by
  intro L
  induction L with
  | nil => intro p; rfl
  | cons a rest ih =>
      intro p
      rcases processAttr_liftOpt_snd f p a with h2 | h2
      · rw [sweep_cons_none _ p a rest h2]; exact ih _
      · rw [sweep_cons_attrErr _ p a rest h2]; exact ih _

theorem sweep_optimizes (f : NNModule → Dtype → NNModule)
    (hf : ∀ m d, (f m d).dtype = m.dtype) (d : Dtype) :
    ∀ (L : List String) (p : Pipeline), L.Nodup →
      textEncoderDtype? p = some d →
      ∀ (a : String) (m : NNModule), a ∈ L →
        getattr? p a = some (PyVal.module m) →
        getattr? (sweep (liftOpt f) L p).1 a =
          some (PyVal.module (f m.eval d)) := by
  have hopt : ∀ mm dd m2, liftOpt f mm dd = Except.ok m2 → m2.dtype = mm.dtype := by
    intro mm dd m2 h
    have hfm : f mm dd = m2 := Except.ok.inj h
    rw [← hfm]
    exact hf mm dd
  intro L
  induction L with
  | nil => intro p _ _ a m ha; exact absurd ha (List.not_mem_nil a)
  | cons b rest ih =>
      intro p hnd ht a m ha hm
      rcases List.nodup_cons.mp hnd with ⟨hbrest, hndrest⟩
      by_cases hab : a = b
      · subst hab
        have ht1 := textEncoderDtype?_setattr_eval p a m d hm ht
        have hok : liftOpt f m.eval d = Except.ok (f m.eval d) := rfl
        have hpa := processAttr_module_ok (liftOpt f) p a m d (f m.eval d) hm ht1 hok
        have h2 : (processAttr (liftOpt f) p a).2 = none := by rw [hpa]
        rw [sweep_cons_none _ p a rest h2]
        rw [sweep_preserves_ne (liftOpt f) a rest _ hbrest]
        rw [hpa]
        exact getattr?_setattr_self _ a _
      · have har : a ∈ rest := by
          rcases List.mem_cons.mp ha with h | h
          · exact absurd h hab
          · exact h
        have ht' : textEncoderDtype? (processAttr (liftOpt f) p b).1 = some d :=
          processAttr_teDtype (liftOpt f) hopt p b d ht
        have hm' : getattr? (processAttr (liftOpt f) p b).1 a = some (PyVal.module m) := by
          rw [processAttr_preserves_ne (liftOpt f) p b a hab]
          exact hm
        rcases processAttr_liftOpt_snd f p b with h2 | h2
        · rw [sweep_cons_none _ p b rest h2]
          exact ih _ hndrest ht' a m har hm'
        · rw [sweep_cons_attrErr _ p b rest h2]
          exact ih _ hndrest ht' a m har hm'

theorem sweep_no_te (opt : OptFun) :
    ∀ (L : List String) (p : Pipeline), L.Nodup →
      getattr? p "text_encoder" = none →
      (sweep opt L p).2 = none ∧
      (∀ (a : String) (m : NNModule), a ∈ L →
        getattr? p a = some (PyVal.module m) →
        getattr? (sweep opt L p).1 a = some (PyVal.module m.eval)) := by
  intro L
  induction L with
  | nil =>
      intro p _ _
      exact ⟨rfl, fun a m ha _ => absurd ha (List.not_mem_nil a)⟩
  | cons b rest ih =>
      intro p hnd hte
      rcases List.nodup_cons.mp hnd with ⟨hbrest, hndrest⟩
      rcases hg : getattr? p b with _ | v
      · have hpa := processAttr_none opt p b hg
        have h2 : (processAttr opt p b).2 = some PyExc.attributeError := by rw [hpa]
        have hstate : (processAttr opt p b).1 = p := by rw [hpa]
        rw [sweep_cons_attrErr opt p b rest h2, hstate]
        rcases ih p hndrest hte with ⟨ih1, ih2⟩
        refine ⟨ih1, ?_⟩
        intro a m ha hm
        rcases List.mem_cons.mp ha with hab | har
        · subst hab
          rw [hm] at hg
          exact Option.noConfusion hg
        · exact ih2 a m har hm
      · rcases v with m | ⟨i, dd⟩
        · have hb_ne_te : b ≠ "text_encoder" := by
            intro hh
            rw [hh, hte] at hg
            exact Option.noConfusion hg
          have hte_ne : ("text_encoder" : String) ≠ b := fun hh => hb_ne_te hh.symm
          have ht1 : textEncoderDtype? (setattr p b (PyVal.module m.eval)) = none := by
            unfold textEncoderDtype?
            rw [getattr?_setattr_ne p b "text_encoder" _ hte_ne, hte]
            rfl
          have hpa := processAttr_module_noDtype opt p b m hg ht1
          have h2 : (processAttr opt p b).2 = some PyExc.attributeError := by rw [hpa]
          have hstate : (processAttr opt p b).1 = setattr p b (PyVal.module m.eval) := by
            rw [hpa]
          rw [sweep_cons_attrErr opt p b rest h2, hstate]
          have hte' : getattr? (setattr p b (PyVal.module m.eval)) "text_encoder" = none := by
            rw [getattr?_setattr_ne p b "text_encoder" _ hte_ne]
            exact hte
          rcases ih (setattr p b (PyVal.module m.eval)) hndrest hte' with ⟨ih1, ih2⟩
          refine ⟨ih1, ?_⟩
          intro a m' ha hm'
          rcases List.mem_cons.mp ha with hab | har
          · subst hab
            rw [hg] at hm'
            have hmm : m = m' := PyVal.module.inj (Option.some.inj hm')
            subst hmm
            rw [sweep_preserves_ne opt a rest _ hbrest]
            exact getattr?_setattr_self p a _
          · have hab2 : a ≠ b := fun hh => hbrest (hh ▸ har)
            have hm2 : getattr? (setattr p b (PyVal.module m.eval)) a = some (PyVal.module m') := by
              rw [getattr?_setattr_ne p b a _ hab2]
              exact hm'
            exact ih2 a m' har hm2
        · have hpa := processAttr_other opt p b i dd hg
          have h2 : (processAttr opt p b).2 = none := by rw [hpa]
          have hstate : (processAttr opt p b).1 = p := by rw [hpa]
          rw [sweep_cons_none opt p b rest h2, hstate]
          rcases ih p hndrest hte with ⟨ih1, ih2⟩
          refine ⟨ih1, ?_⟩
          intro a m ha hm
          rcases List.mem_cons.mp ha with hab | har
          · subst hab
            rw [hm] at hg
            exact PyVal.noConfusion (Option.some.inj hg)
          · exact ih2 a m har hm

-- ----------------------------------------------------------------------
-- Claim theorems.
-- ----------------------------------------------------------------------

/-- C1: for every attribute name in dir(pipeline) whose value is an
nn.Module instance, optimize_pipeline replaces that attribute with the
result of ipex.optimize applied to the module in eval mode, with the dtype
taken from pipeline.text_encoder.dtype, and returns the pipeline with every
such submodule swapped.  Stated for any model f of a successful
ipex.optimize call that preserves the dtype attribute of the module,
assuming dir lists no duplicates (as Python dir guarantees) and the text
encoder exposes a dtype. -/
theorem optimize_pipeline_optimizes_every_module
    (f : NNModule → Dtype → NNModule) (hf : ∀ m d, (f m d).dtype = m.dtype)
    (p : Pipeline) (d : Dtype) (hnd : p.dirList.Nodup)
    (hte : textEncoderDtype? p = some d)
    (a : String) (m : NNModule) (ha : a ∈ p.dirList)
    (hm : getattr? p a = some (PyVal.module m)) :
    getattr? (optimize_pipeline (liftOpt f) p).1 a =
      some (PyVal.module (f m.eval d)) ∧
    (optimize_pipeline (liftOpt f) p).2 = none := by
  exact ⟨sweep_optimizes f hf d p.dirList p hnd hte a m ha hm,
         sweep_liftOpt_snd f p.dirList p⟩

/-- Witness for C1: on a concrete pipeline with a bfloat16 text encoder and
a unet in training mode, the unet attribute ends up optimized for bfloat16
in eval mode and the call returns normally. -/
theorem optimize_pipeline_optimizes_every_module_w :
    getattr? (optimize_pipeline (liftOpt ipexOptimizeFn) pipeC1).1 "unet" =
      some (PyVal.module (ipexOptimizeFn (NNModule.eval unetModule) Dtype.bfloat16)) ∧
    (optimize_pipeline (liftOpt ipexOptimizeFn) pipeC1).2 = none :=
  optimize_pipeline_optimizes_every_module ipexOptimizeFn (fun _ _ => rfl)
    pipeC1 Dtype.bfloat16 (by decide) (by decide) "unet" unetModule
    (by decide) (by decide)

/-- C8: optimize_pipeline returns the very pipeline object it was given,
mutated in place (the object identity of the result equals that of the
argument), and every attribute whose value is not an nn.Module instance is
left unchanged, whatever the external optimizer does. -/
theorem optimize_pipeline_in_place_non_modules_unchanged
    (opt : OptFun) (p : Pipeline) :
    (optimize_pipeline opt p).1.objId = p.objId ∧
    ∀ (b : String) (i : Nat) (dd : Option Dtype),
      getattr? p b = some (PyVal.other i dd) →
      getattr? (optimize_pipeline opt p).1 b = some (PyVal.other i dd) := by
  refine ⟨sweep_objId opt p.dirList p, ?_⟩
  intro b i dd h
  exact sweep_preserves_other opt b i dd p.dirList p h

/-- Witness for C8: on a concrete pipeline the object identity and the
non-module feature_extractor attribute survive the call. -/
theorem optimize_pipeline_in_place_non_modules_unchanged_w :
    (optimize_pipeline (liftOpt ipexOptimizeFn) pipeC8).1.objId = pipeC8.objId ∧
    getattr? (optimize_pipeline (liftOpt ipexOptimizeFn) pipeC8).1 "feature_extractor" =
      some (PyVal.other 3 (some Dtype.float32)) := by
  have h := optimize_pipeline_in_place_non_modules_unchanged
    (liftOpt ipexOptimizeFn) pipeC8
  exact ⟨h.1, h.2 "feature_extractor" 3 (some Dtype.float32) (by decide)⟩

/-- C3: an attribute whose processing raises AttributeError is silently
skipped and the sweep continues over the remaining attributes from the
current state; an exception of any other class is not recovered from but
aborts the sweep; and one iteration never rebinds any attribute other than
the one it processes, so attributes already optimized are not undone by a
later skip. -/
theorem sweep_skips_attributeError_only
    (opt : OptFun) (p : Pipeline) (a : String) (rest : List String) (e : PyExc)
    (h : (processAttr opt p a).2 = some e) :
    (e = PyExc.attributeError →
      sweep opt (a :: rest) p = sweep opt rest (processAttr opt p a).1) ∧
    (∀ s, e = PyExc.otherError s →
      sweep opt (a :: rest) p =
        ((processAttr opt p a).1, some (PyExc.otherError s))) ∧
    (∀ b, b ≠ a → getattr? (processAttr opt p a).1 b = getattr? p b) := by
  refine ⟨?_, ?_, ?_⟩
  · intro he
    rw [he] at h
    exact sweep_cons_attrErr opt p a rest h
  · intro s hs
    rw [hs] at h
    exact sweep_cons_other opt p a rest s h
  · intro b hb
    exact processAttr_preserves_ne opt p a b hb

/-- Witness for C3: dir of pipeC3 lists a ghost attribute that getattr
cannot produce; its AttributeError is skipped, the sweep continues with the
unet, and the skipped iteration leaves the unet attribute untouched. -/
theorem sweep_skips_attributeError_only_w :
    sweep (liftOpt ipexOptimizeFn) ("ghost" :: ["unet"]) pipeC3 =
      sweep (liftOpt ipexOptimizeFn) ["unet"]
        (processAttr (liftOpt ipexOptimizeFn) pipeC3 "ghost").1 ∧
    getattr? (processAttr (liftOpt ipexOptimizeFn) pipeC3 "ghost").1 "unet" =
      getattr? pipeC3 "unet" := by
  have h := sweep_skips_attributeError_only (liftOpt ipexOptimizeFn) pipeC3
    "ghost" ["unet"] PyExc.attributeError (by decide)
  exact ⟨h.1 rfl, h.2.2 "unet" (by decide)⟩

/-- C2 is false as stated: on pipeC2 the external ipex.optimize call,
modeled by optAttrFail, raises AttributeError while optimizing the unet,
and optimize_pipeline swallows that library exception and returns normally
instead of letting it propagate to the caller. -/
theorem external_exception_swallowed_cex :
    (processAttr optAttrFail pipeC2 "unet").2 = some PyExc.attributeError ∧
    (optimize_pipeline optAttrFail pipeC2).2 = none := by
  exact ⟨by decide, by decide⟩

/-- C2 amended: no exception raised by a library call propagates out of the
repository code uncaught, except that an AttributeError raised by any call
inside the per-attribute try block of optimize_pipeline (getattr, eval, the
text_encoder.dtype access, or ipex.optimize itself) is caught and silently
swallowed: optimize_pipeline never lets an AttributeError escape, while an
exception of any other class aborts the sweep at once and propagates. -/
theorem optimize_pipeline_exception_policy (opt : OptFun) (p : Pipeline) :
    (optimize_pipeline opt p).2 ≠ some PyExc.attributeError ∧
    (∀ (q : Pipeline) (a : String) (rest : List String) (s : String),
      (processAttr opt q a).2 = some (PyExc.otherError s) →
      sweep opt (a :: rest) q =
        ((processAttr opt q a).1, some (PyExc.otherError s))) := by
  refine ⟨sweep_snd_ne_attrErr opt p.dirList p, ?_⟩
  intro q a rest s h
  exact sweep_cons_other opt q a rest s h

/-- Witness for the amended C2: a RuntimeError raised by the modeled
ipex.optimize aborts the sweep and propagates. -/
theorem optimize_pipeline_exception_policy_w :
    (optimize_pipeline optRuntimeFail pipeC2w).2 ≠ some PyExc.attributeError ∧
    sweep optRuntimeFail ("unet" :: []) pipeC2w =
      ((processAttr optRuntimeFail pipeC2w "unet").1,
       some (PyExc.otherError "RuntimeError")) := by
  have h := optimize_pipeline_exception_policy optRuntimeFail pipeC2w
  exact ⟨h.1, h.2 pipeC2w "unet" [] "RuntimeError" (by decide)⟩

/-- C7 is false as stated: with no text_encoder attribute the call is not a
no-op returning the pipeline unchanged, because the in-place .eval() in the
first argument of ipex.optimize has already switched the unet to eval mode
before pipeline.text_encoder.dtype raises AttributeError; the returned
pipeline state differs from the input. -/
theorem no_text_encoder_not_noop_cex :
    (optimize_pipeline (liftOpt ipexOptimizeFn) pipeC7).1 ≠ pipeC7 ∧
    (optimize_pipeline (liftOpt ipexOptimizeFn) pipeC7).2 = none := by
  exact ⟨by decide, by decide⟩

/-- C7 amended: if the pipeline has no text_encoder attribute then, whatever
the external optimizer would do, optimize_pipeline returns normally with no
module optimized and no non-module or unlisted attribute changed; its only
effect is that every nn.Module attribute listed by dir is left switched to
eval mode (training flag cleared, every other field intact) by the in-place
.eval() call that runs before the failing dtype access. -/
theorem optimize_pipeline_no_text_encoder (opt : OptFun) (p : Pipeline)
    (hte : getattr? p "text_encoder" = none) (hnd : p.dirList.Nodup) :
    (optimize_pipeline opt p).2 = none ∧
    (∀ (a : String) (m : NNModule), a ∈ p.dirList →
      getattr? p a = some (PyVal.module m) →
      getattr? (optimize_pipeline opt p).1 a = some (PyVal.module m.eval)) ∧
    (∀ (b : String) (i : Nat) (dd : Option Dtype),
      getattr? p b = some (PyVal.other i dd) →
      getattr? (optimize_pipeline opt p).1 b = some (PyVal.other i dd)) ∧
    (∀ (b : String), b ∉ p.dirList →
      getattr? (optimize_pipeline opt p).1 b = getattr? p b) := by
  rcases sweep_no_te opt p.dirList p hnd hte with ⟨h1, h2⟩
  refine ⟨h1, h2, ?_, ?_⟩
  · intro b i dd h
    exact sweep_preserves_other opt b i dd p.dirList p h
  · intro b hb
    exact sweep_preserves_ne opt b p.dirList p hb

/-- Witness for the amended C7: on a concrete pipeline without text_encoder
the call returns normally, the unet is merely switched to eval mode and not
optimized, and the scheduler attribute is untouched. -/
theorem optimize_pipeline_no_text_encoder_w :
    (optimize_pipeline (liftOpt ipexOptimizeFn) pipeC7w).2 = none ∧
    getattr? (optimize_pipeline (liftOpt ipexOptimizeFn) pipeC7w).1 "unet" =
      some (PyVal.module (NNModule.eval unetModule)) ∧
    getattr? (optimize_pipeline (liftOpt ipexOptimizeFn) pipeC7w).1 "scheduler" =
      some (PyVal.other 9 none) := by
  have h := optimize_pipeline_no_text_encoder (liftOpt ipexOptimizeFn) pipeC7w
    (by decide) (by decide)
  exact ⟨h.1, h.2.1 "unet" unetModule (by decide) (by decide),
         h.2.2.1 "scheduler" 9 none (by decide)⟩

/-- C4 is false as stated: on a first run the OpenVINO notebook also writes
notebook_utils.py (Python source) and the exported model directory, and the
simple PyTorch notebook writes no file at all, so "a single PNG and nothing
else" fails on both. -/
theorem writes_not_single_png_cex :
    ¬ specSinglePngOnly (ovSteps false 20 42) ∧
    ("notebook_utils.py", FileKind.pythonSource) ∈ writesOf (ovSteps false 20 42) ∧
    ¬ specSinglePngOnly simpleSDSteps := by
  unfold specSinglePngOnly
  decide

/-- C4 amended: the ControlNet notebook writes exactly one PNG (house.png);
the simple PyTorch notebook writes no file (its image.save call is
commented out); the OpenVINO notebook writes result.png but in addition
always writes notebook_utils.py and, on a first run, the exported model
directory diffusion_pipeline. -/
theorem notebook_file_writes :
    writesOf controlNetSteps = [("house.png", FileKind.png)] ∧
    writesOf simpleSDSteps = [] ∧
    writesOf (ovSteps false 20 42) =
      [("notebook_utils.py", FileKind.pythonSource),
       ("diffusion_pipeline", FileKind.modelDirSave),
       ("result.png", FileKind.png)] ∧
    writesOf (ovSteps true 20 42) =
      [("notebook_utils.py", FileKind.pythonSource),
       ("result.png", FileKind.png)] := by
  exact ⟨rfl, rfl, rfl, rfl⟩

/-- C5 is false as stated: none of the three notebooks passes all of step
count, guidance scale and random seed to the inference call. -/
theorem inference_params_missing_cex :
    ¬ specFullNumericParams simpleSDSteps ∧
    ¬ specFullNumericParams controlNetSteps ∧
    ¬ specFullNumericParams (ovSteps false 20 42) := by
  unfold specFullNumericParams
  decide

/-- C5 amended: every inference call passes a positional prompt string, but
not the full numeric parameter set: the simple notebook passes only the
prompt; the ControlNet notebook passes the prompt and the conditioning
image; the OpenVINO notebook passes the prompt and num_inference_steps (for
any widget values) and seeds the numpy RNG globally beforehand instead of
passing a seed; no notebook passes a guidance scale or a seed argument. -/
theorem inference_call_arguments (st sv : Nat) (b : Bool) :
    inferencesOf simpleSDSteps =
      [{ prompt := "A cat riding a surfboard on a big wave",
         numInferenceSteps := none, guidanceScale := none, seedArg := none,
         conditioningImage := false }] ∧
    inferencesOf controlNetSteps =
      [{ prompt := "Vivid Watercolor", numInferenceSteps := none,
         guidanceScale := none, seedArg := none, conditioningImage := true }] ∧
    inferencesOf (ovSteps b st sv) =
      [{ prompt := ovPrompt, numInferenceSteps := some st,
         guidanceScale := none, seedArg := none, conditioningImage := false }] ∧
    Step.seedNumpy sv ∈ ovSteps b st sv := by
  refine ⟨rfl, rfl, ?_, ?_⟩
  · cases b <;> rfl
  · cases b <;> simp [ovSteps]

/-- C6 is false as stated: the ControlNet notebook performs neither an
environment-setup step nor a dependency-install step, so it is not a run of
the six-phase sequence the claim describes. -/
theorem controlnet_missing_phases_cex :
    ¬ specLinearScript controlNetSteps ∧
    Phase.install ∉ phasesOf controlNetSteps ∧
    Phase.setup ∉ phasesOf controlNetSteps := by
  unfold specLinearScript phasesMonotone
  decide

/-- C6 amended: each notebook performs the phases it does contain in the
spec order (setup, install, model load, device transfer, inference,
display/save), builds its inference pipeline exactly once per run and calls
it exactly once; however the ControlNet notebook has no setup or install
phase, and the OpenVINO notebook has no separate device-transfer step (the
device is chosen when the pipeline is loaded). -/
theorem notebook_phase_order :
    phasesMonotone simpleSDSteps ∧ phasesMonotone controlNetSteps ∧
    phasesMonotone (ovSteps false 20 42) ∧ phasesMonotone (ovSteps true 20 42) ∧
    pipelineLoadCount simpleSDSteps = 1 ∧ pipelineLoadCount controlNetSteps = 1 ∧
    pipelineLoadCount (ovSteps false 20 42) = 1 ∧
    pipelineLoadCount (ovSteps true 20 42) = 1 ∧
    inferenceCount simpleSDSteps = 1 ∧ inferenceCount controlNetSteps = 1 ∧
    inferenceCount (ovSteps false 20 42) = 1 ∧
    inferenceCount (ovSteps true 20 42) = 1 := by
  unfold phasesMonotone
  decide

/-- C9: the Canny conditioning image handed to the ControlNet pipeline is
the single-channel edge array stacked three times along the channel axis,
so its three channel values agree at every pixel, whatever single-channel
array cv2.Canny produced. -/
theorem canny_image_channels_equal (edge : Nat → Nat → Nat) (i j : Nat)
    (c c' : Fin 3) :
    cannyImageArray edge i j c = cannyImageArray edge i j c' := by
  unfold cannyImageArray concatChannels3 addChannelAxis
  split_ifs <;> rfl
